import Mathlib

/-!
Shallow embedding of the ShinAI security-monitoring pipeline
(`src/security/monitoring`): the compliance scorer, the threat scorer,
the audit logger, the alert manager and the event-pipeline
orchestrator, together with theorems settling the specification
claims.

External primitives - the JavaScript regular-expression engine,
SHA-256, the AES cipher, JSON serialisation, Redis-backed counters,
geo/UA lookups and the system clock - are supplied as explicit
environment parameters; every other definition is translated directly
from the JavaScript source.  Scores and confidences (JS numbers) are
modelled as rationals.
-/

namespace ShinAI

/-- Ordinal severity scale of the monitoring system; `severityLevel`
mirrors `ThreatDetector.getSeverityLevel` (low 1, medium 2, high 3,
critical 4). -/
inductive Severity where
  | low
  | medium
  | high
  | critical
deriving DecidableEq, Repr

def severityLevel : Severity → Nat
  | .low => 1
  | .medium => 2
  | .high => 3
  | .critical => 4

/-- Environment abstracting the JavaScript regular-expression engine:
`rmatch pat s` is the first match of the regex whose source literal is
`pat` (all regexes in the source are case-insensitive) in `s`,
mirroring `String.prototype.match`; `RegExp.prototype.test` is its
`isSome` (definition `rtest`). -/
structure REnv where
  rmatch : String → String → Option String

def rtest (env : REnv) (pat s : String) : Bool :=
  (env.rmatch pat s).isSome

/-- Position of the first occurrence of `sub`, on character lists. -/
def subIdx (sub : List Char) : List Char → Option Nat
  | [] => if sub.isEmpty then some 0 else none
  | c :: t => if sub.isPrefixOf (c :: t) then some 0 else (subIdx sub t).map (· + 1)

/-- JavaScript `String.prototype.indexOf`: index of the first
occurrence, `-1` when absent. -/
def strIndexOf (s sub : String) : Int :=
  match subIdx sub.data s.data with
  | some n => (n : Int)
  | none => -1

/-- JavaScript `String.prototype.substring`: clamps both arguments to
`[0, length]` and swaps them when out of order. -/
def strSubstring (s : String) (start stop : Int) : String :=
  let n : Int := (s.length : Int)
  let a := min (max 0 start) n
  let b := min (max 0 stop) n
  let lo := (min a b).toNat
  let hi := (max a b).toNat
  String.mk ((s.data.drop lo).take (hi - lo))

/-- One compliance detection pattern of `ComplianceChecker`: the regex
source literal and whether that literal contains a word-boundary
marker, precomputed from the literal exactly as
`pattern.source.includes` with argument backslash-b tests it in
`checkPrincipleViolation` (every pattern in the source table does). -/
structure CPat where
  src : String
  wordBoundary : Bool
deriving DecidableEq, Repr

/-- One Constitutional-AI principle of
`ComplianceChecker.constitutionalPrinciples`: key, weight, detection
patterns and human-readable description. -/
structure PrincipleConfig where
  name : String
  weight : ℚ
  patterns : List CPat
  description : String
deriving DecidableEq, Repr

/-- The fixed principle table of `ComplianceChecker`, in the object
insertion order the source iterates with `Object.entries`. -/
def constitutionalPrinciples : List PrincipleConfig :=
  [ { name := "human_dignity", weight := 1,
      patterns :=
        [ ⟨"\\b(dehumaniz|degrading|humiliat|objectif)", true⟩,
          ⟨"\\b(treat.*like.*object|reduce.*to.*tool)", true⟩,
          ⟨"\\b(disposable|worthless|subhuman)", true⟩ ],
      description := "人間の尊厳の保護" },
    { name := "individual_freedom", weight := 0.9,
      patterns :=
        [ ⟨"\\b(coerce|force|manipulat|deceive)", true⟩,
          ⟨"\\b(restrict.*freedom|control.*thought)", true⟩,
          ⟨"\\b(brainwash|indoctrinat)", true⟩ ],
      description := "個人の自由の尊重" },
    { name := "equality_fairness", weight := 0.95,
      patterns :=
        [ ⟨"\\b(discriminat|bias|prejudice|unfair)", true⟩,
          ⟨"\\b(racist|sexist|ageist|homophobic)", true⟩,
          ⟨"\\b(superior.*inferior|better.*worse.*race)", true⟩ ],
      description := "平等性と公平性" },
    { name := "justice_rule_of_law", weight := 0.9,
      patterns :=
        [ ⟨"\\b(illegal|unlawful|criminal|illicit)", true⟩,
          ⟨"\\b(violate.*law|break.*regulation)", true⟩,
          ⟨"\\b(corruption|bribery|fraud)", true⟩ ],
      description := "正義と法の支配" },
    { name := "democratic_participation", weight := 0.8,
      patterns :=
        [ ⟨"\\b(suppress.*vote|election.*fraud)", true⟩,
          ⟨"\\b(authoritari|totalitari|dictator)", true⟩,
          ⟨"\\b(silence.*opposition|censor.*dissent)", true⟩ ],
      description := "民主的参加" },
    { name := "accountability_transparency", weight := 0.95,
      patterns :=
        [ ⟨"\\b(hide.*truth|conceal.*fact|cover.*up)", true⟩,
          ⟨"\\b(deception|mislead|false.*information)", true⟩,
          ⟨"\\b(secret.*agenda|hidden.*motive)", true⟩ ],
      description := "説明責任と透明性" },
    { name := "beneficence_non_maleficence", weight := 1,
      patterns :=
        [ ⟨"\\b(harm|hurt|damage|destroy|kill)", true⟩,
          ⟨"\\b(violence|attack|assault|abuse)", true⟩,
          ⟨"\\b(poison|weapon|explosive|dangerous)", true⟩ ],
      description := "善行と無害性" },
    { name := "privacy_protection", weight := 0.95,
      patterns :=
        [ ⟨"\\b(steal.*data|breach.*privacy|expose.*personal)", true⟩,
          ⟨"\\b(surveillance|spy|monitor.*private)", true⟩,
          ⟨"\\b(identity.*theft|personal.*information.*leak)", true⟩ ],
      description := "プライバシー保護" },
    { name := "truthfulness_honesty", weight := 0.9,
      patterns :=
        [ ⟨"\\b(lie|false|fake|misinformation)", true⟩,
          ⟨"\\b(propaganda|manipulation|deception)", true⟩,
          ⟨"\\b(conspiracy.*theory|alternative.*fact)", true⟩ ],
      description := "真実性と誠実性" },
    { name := "sustainability", weight := 0.8,
      patterns :=
        [ ⟨"\\b(environmental.*destruction|pollution)", true⟩,
          ⟨"\\b(waste.*resource|unsustainable)", true⟩,
          ⟨"\\b(climate.*denial|ecological.*damage)", true⟩ ],
      description := "持続可能性" } ]

/-- Per-principle outcome of `checkPrincipleViolation`. -/
structure ViolationCheck where
  violated : Bool
  severity : Severity
  confidence : ℚ
  matchedPatterns : List String
  context : List String
deriving DecidableEq, Repr

/-- Body of the pattern loop of `checkPrincipleViolation`: on a match,
record the pattern and a 50-character context window, add base
confidence 0.3, plus 0.2 for a word-boundary pattern, plus 0.1 for a
match longer than 10 characters. -/
def cpvStep (env : REnv) (content : String) (v : ViolationCheck) (p : CPat) : ViolationCheck :=
  match env.rmatch p.src content with
  | none => v
  | some m =>
    let idx := strIndexOf content m
    let ctx := strSubstring content (max 0 (idx - 50))
      (min (content.length : Int) (idx + (m.length : Int) + 50))
    let c1 := v.confidence + 0.3
    let c2 := if p.wordBoundary then c1 + 0.2 else c1
    let c3 := if m.length > 10 then c2 + 0.1 else c2
    { v with
        violated := true
        matchedPatterns := v.matchedPatterns ++ [p.src]
        context := v.context ++ [ctx]
        confidence := c3 }

/-- `ComplianceChecker.checkPrincipleViolation`: run every pattern of
the principle against the content, clamp the confidence at 1, derive
the severity from confidence thresholds, and escalate the two critical
principles (human dignity, beneficence / non-maleficence). -/
def checkPrincipleViolation (env : REnv) (principle : String)
    (config : PrincipleConfig) (content : String) : ViolationCheck :=
  let v0 : ViolationCheck :=
    { violated := false, severity := .low, confidence := 0,
      matchedPatterns := [], context := [] }
  let v1 := config.patterns.foldl (cpvStep env content) v0
  let v2 := { v1 with confidence := min 1 v1.confidence }
  let v3 :=
    if v2.confidence > 0.8 then { v2 with severity := .critical }
    else if v2.confidence > 0.6 then { v2 with severity := .high }
    else if v2.confidence > 0.4 then { v2 with severity := .medium }
    else v2
  if (principle = "human_dignity" ∨ principle = "beneficence_non_maleficence")
      ∧ v3.violated = true then
    { v3 with severity := .critical, confidence := max 0.8 v3.confidence }
  else v3

/-- One entry of `ComplianceResult.violations`. -/
structure ComplianceViolation where
  principle : String
  description : String
  severity : Severity
  confidence : ℚ
  matchedPatterns : List String
  context : List String
deriving DecidableEq, Repr

/-- Result of `ComplianceChecker.checkCompliance` (the `timestamp` and
event-specific `metadata` fields, which never feed back into the
scoring, are not modelled). -/
structure ComplianceResult where
  compliant : Bool
  violations : List ComplianceViolation
  score : ℚ
  principlesChecked : List String
deriving DecidableEq, Repr

/-- Body of the principle loop of `checkCompliance`: a violated
principle flips `compliant`, appends a violation record and subtracts
its weighted confidence from the score. -/
def ccStep (env : REnv) (content : String) (acc : ComplianceResult)
    (pc : PrincipleConfig) : ComplianceResult :=
  let v := checkPrincipleViolation env pc.name pc content
  if v.violated then
    { acc with
        compliant := false
        violations := acc.violations ++
          [⟨pc.name, pc.description, v.severity, v.confidence,
            v.matchedPatterns, v.context⟩]
        score := acc.score - pc.weight * v.confidence }
  else acc

/-- `ComplianceChecker.checkCompliance` on already-serialised content:
fold the principle table over an initially compliant result, then
clamp the score to `[0, 1]`. -/
def checkCompliance (env : REnv) (content : String) : ComplianceResult :=
  let init : ComplianceResult :=
    { compliant := true, violations := [], score := 1,
      principlesChecked := constitutionalPrinciples.map (·.name) }
  let r := constitutionalPrinciples.foldl (ccStep env content) init
  { r with score := max 0 (min 1 r.score) }

/-- Result of a geoip lookup (`geoip.lookup`): country code and owning
organisation. -/
structure Geo where
  country : String
  org : Option String
deriving DecidableEq, Repr

/-- Result of `uaParser.getResult()` as consumed by the detector. -/
structure UAData where
  browserName : Option String
  browserVersion : Option String
  osName : Option String
deriving DecidableEq, Repr, Inhabited

/-- The JSON payload of a security event, abstracted by its
`JSON.stringify` serialisation and its optional `endpoint` field (the
only field the detector reads individually). -/
structure EventData where
  serialized : String
  endpoint : Option String
deriving DecidableEq, Repr

/-- The `source` object of a SecurityEvent. -/
structure EventSource where
  ip : Option String
  userAgent : Option String
  referer : Option String
deriving DecidableEq, Repr

/-- An inbound SecurityEvent; `metaSerialized` is the `JSON.stringify`
of its free-form `metadata` field when present. -/
structure SecurityEvent where
  id : Option String
  timestamp : String
  etype : String
  source : Option EventSource
  data : Option EventData
  metaSerialized : Option String
deriving DecidableEq, Repr

/-- External state read by `ThreatDetector.analyzeThreat`: the regex
engine, the IP blacklist, the Redis-backed per-IP counters and scores
(`requestCount` is the value `getIPRequestCount` reads before its own
increment, `recentRequestCount` the length of the filtered
`getRecentRequestsByIP` window), geoip / user-agent lookups, and the
wall-clock hour read by `new Date().getHours()`. -/
structure TEnv where
  rmatch : String → String → Option String
  blacklist : List String
  requestCount : String → Nat
  suspiciousScore : String → ℚ
  recentRequestCount : String → Nat
  geo : String → Option Geo
  uaParse : String → UAData
  hour : Nat

def tmatches (env : TEnv) (pat s : String) : Bool :=
  (env.rmatch pat s).isSome

/-- The evidence metadata of a ThreatAnalysisResult.  The JS object
keyed by threat type is modelled as the list of `(type, pattern,
matched content)` writes in order; `sourceIp` is never written by the
detector (mirroring the source, where `metadata.source_ip` stays
undefined) but is read by the alert manager. -/
structure TMeta where
  requestCount : Option Nat
  recentRequests : Option Nat
  payloadSize : Option Nat
  geolocation : Option Geo
  userAgent : Option UAData
  constitutionalViolations : List String
  patternEvidence : List (String × String × Option String)
  sourceIp : Option String
deriving DecidableEq, Repr

def TMeta.empty : TMeta :=
  ⟨none, none, none, none, none, [], [], none⟩

/-- Result of `ThreatDetector.analyzeThreat` (its `timestamp` field,
`new Date()`, never feeds back into the analysis and is not
modelled). -/
structure ThreatAnalysisResult where
  isThreat : Bool
  threatTypes : List String
  severity : Severity
  confidence : ℚ
  meta : TMeta
  constitutionalCompliant : Bool
deriving DecidableEq, Repr

/-- `JSON.stringify(eventData.data)` as the analyzers see it; the
stringification of a missing field is the undefined value, which the
string/regex methods coerce to the text form of undefined. -/
def serializedData (e : SecurityEvent) : String :=
  match e.data with
  | some d => d.serialized
  | none => "undefined"

/-- The event source IP after the truthiness guard `if (!ip) return`
shared by the IP-based analyzers. -/
def presentIp (e : SecurityEvent) : Option String :=
  match e.source.bind (·.ip) with
  | some s => if s = "" then none else some s
  | none => none

/-- `ThreatDetector.analyzeIPThreat`: blacklist membership (severity
set to high), per-minute rate limit (severity then set to medium), and
late-night access combined with a cached suspicion score. -/
def analyzeIPThreat (env : TEnv) (e : SecurityEvent)
    (r : ThreatAnalysisResult) : ThreatAnalysisResult :=
  match presentIp e with
  | none => r
  | some ip =>
    let r1 :=
      if env.blacklist.contains ip then
        { r with
            isThreat := true
            threatTypes := r.threatTypes ++ ["blacklisted_ip"]
            severity := .high
            confidence := r.confidence + 0.9 }
      else r
    let cnt := env.requestCount ip
    let r2 :=
      if cnt > 100 then
        { r1 with
            isThreat := true
            threatTypes := r1.threatTypes ++ ["rate_limit_exceeded"]
            severity := .medium
            confidence := r1.confidence + 0.7
            meta := { r1.meta with requestCount := some cnt } }
      else r1
    if 2 ≤ env.hour ∧ env.hour ≤ 5 then
      if env.suspiciousScore ip > 0.5 then
        { r2 with
            threatTypes := r2.threatTypes ++ ["suspicious_timing"]
            confidence := r2.confidence + 0.3 }
      else r2
    else r2

/-- The `threatPatterns` table of the detector, in object insertion
order; each entry is the regex source literal. -/
def threatPatternsTable : List (String × List String) :=
  [ ("sql_injection",
      [ "(\\bunion\\b|\\bselect\\b|\\binsert\\b|\\bdelete\\b|\\bdrop\\b|\\bcreate\\b|\\balter\\b|\\bexec\\b)",
        "(\\bor\\b|\\band\\b)\\s*\\d+\\s*=\\s*\\d+",
        "[\\\x27\\\"];?\\s*(union|select|insert|delete)" ]),
    ("xss_attack",
      [ "<script\\b[^<]*(?:(?!<\\/script>)<[^<]*)*<\\/script>",
        "javascript:",
        "vbscript:",
        "on\\w+\\s*=",
        "<iframe|<object|<embed" ]),
    ("csrf_attempt",
      [ "\\b(csrf|xsrf)\\b.*token",
        "authenticity_token" ]),
    ("directory_traversal",
      [ "\\.\\.[\\/\\\\]",
        "\\.\\.[\\/\\\\][\\/\\\\]",
        "\\/etc\\/passwd",
        "\\/windows\\/system32" ]),
    ("command_injection",
      [ "[;&|\x60$()\x7b\x7d[\\]]",
        "\\b(cat|ls|dir|type|del|rm|mv|cp)\\b",
        "\\b(wget|curl|nc|netcat)\\b" ]),
    ("constitutional_violation",
      [ "\\b(illegal|harmful|dangerous|unethical|discriminatory)\\b",
        "\\b(violent|threat|harm|kill|destroy)\\b",
        "\\b(fraud|scam|phishing|malware)\\b",
        "\\b(privacy.*violation|data.*breach)\\b" ]) ]

/-- The per-category `severityMap` inside `analyzePatternThreat`, with
its default of medium for unmapped categories. -/
def patternSeverityOf : String → Severity
  | "sql_injection" => .critical
  | "xss_attack" => .high
  | "command_injection" => .critical
  | "constitutional_violation" => .high
  | "directory_traversal" => .high
  | "csrf_attempt" => .medium
  | _ => .medium

/-- Body of the pattern loop in `analyzePatternThreat`: a match marks
the event as a threat, records the category, raises the severity to
the category severity when that is strictly higher, adds confidence
0.8, stores evidence, and clears constitutional compliance for the
constitutional-violation category. -/
def patStep (env : TEnv) (content : String) (tt : String)
    (r : ThreatAnalysisResult) (p : String) : ThreatAnalysisResult :=
  match env.rmatch p content with
  | none => r
  | some m =>
    let sev := patternSeverityOf tt
    let r1 :=
      { r with
          isThreat := true
          threatTypes := r.threatTypes ++ [tt]
          severity :=
            if severityLevel sev > severityLevel r.severity then sev
            else r.severity
          confidence := r.confidence + 0.8
          meta := { r.meta with
            patternEvidence := r.meta.patternEvidence ++ [(tt, p, some m)] } }
    if tt = "constitutional_violation" then
      { r1 with constitutionalCompliant := false }
    else r1

/-- `ThreatDetector.analyzePatternThreat`: run every category's
patterns over the serialised payload. -/
def analyzePatternThreat (env : TEnv) (e : SecurityEvent)
    (r : ThreatAnalysisResult) : ThreatAnalysisResult :=
  let content := serializedData e
  threatPatternsTable.foldl
    (fun acc cat => cat.2.foldl (patStep env content cat.1) acc) r

/-- `ThreatDetector.isAdminEndpoint`. -/
def isAdminEndpoint (env : TEnv) (endpoint : String) : Bool :=
  tmatches env "\\/(admin|config|debug|internal)" endpoint

/-- `ThreatDetector.analyzeAnomalousActivity`: request burst in the
5-minute window, administrative-looking endpoints, oversized
payloads.  All three checks sit behind the shared `if (!ip) return`
guard. -/
def analyzeAnomalousActivity (env : TEnv) (e : SecurityEvent)
    (r : ThreatAnalysisResult) : ThreatAnalysisResult :=
  match presentIp e with
  | none => r
  | some ip =>
    let recent := env.recentRequestCount ip
    let r1 :=
      if recent > 50 then
        { r with
            isThreat := true
            threatTypes := r.threatTypes ++ ["ddos_attempt"]
            severity := .high
            confidence := r.confidence + 0.8
            meta := { r.meta with recentRequests := some recent } }
      else r
    let r2 :=
      match e.data.bind (·.endpoint) with
      | some ep =>
        if ep ≠ "" ∧ isAdminEndpoint env ep = true then
          { r1 with
              threatTypes := r1.threatTypes ++ ["admin_access_attempt"]
              confidence := r1.confidence + 0.5 }
        else r1
      | none => r1
    let size := (serializedData e).length
    if size > 100000 then
      { r2 with
          threatTypes := r2.threatTypes ++ ["oversized_payload"]
          confidence := r2.confidence + 0.4
          meta := { r2.meta with payloadSize := some size } }
    else r2

def highRiskCountries : List String := ["CN", "RU", "KP", "IR"]

/-- `ThreatDetector.isPotentialVPN`: truthy `geo.org` matched against
the vpn/proxy/hosting regex. -/
def isPotentialVPN (env : TEnv) (g : Geo) : Bool :=
  match g.org with
  | some o => if o = "" then false else tmatches env "vpn|proxy|hosting" o
  | none => false

/-- `ThreatDetector.analyzeGeolocation`. -/
def analyzeGeolocation (env : TEnv) (e : SecurityEvent)
    (r : ThreatAnalysisResult) : ThreatAnalysisResult :=
  match presentIp e with
  | none => r
  | some ip =>
    match env.geo ip with
    | none => r
    | some g =>
      let r0 := { r with meta := { r.meta with geolocation := some g } }
      let r1 :=
        if highRiskCountries.contains g.country then
          { r0 with
              threatTypes := r0.threatTypes ++ ["high_risk_country"]
              confidence := r0.confidence + 0.3 }
        else r0
      if isPotentialVPN env g then
        { r1 with
            threatTypes := r1.threatTypes ++ ["vpn_tor_usage"]
            confidence := r1.confidence + 0.2 }
      else r1

/-- JavaScript `parseInt` restricted to the version strings the
detector feeds it: the leading digit run, none when there is none. -/
def parseLeadingNat (s : String) : Option Nat :=
  let ds := s.data.takeWhile Char.isDigit
  if ds.isEmpty then none
  else some (ds.foldl (fun n c => n * 10 + (c.toNat - 48)) 0)

/-- The `outdatedVersions` table of `isOutdatedBrowser`. -/
def outdatedThreshold : String → Option Nat
  | "Chrome" => some 90
  | "Firefox" => some 80
  | "Safari" => some 13
  | "Edge" => some 90
  | _ => none

/-- `ThreatDetector.isOutdatedBrowser`. -/
def isOutdatedBrowser (ua : UAData) : Bool :=
  match ua.browserVersion with
  | none => false
  | some v =>
    if v = "" then false
    else
      let major := parseLeadingNat (String.mk (v.data.takeWhile (· ≠ '.')))
      match ua.browserName with
      | none => false
      | some name =>
        match outdatedThreshold name, major with
        | some t, some m => m < t
        | _, _ => false

def suspiciousBotPatterns : List String :=
  [ "bot|crawler|spider|scraper",
    "curl|wget|python|java|php",
    "automated|script|tool" ]

/-- `ThreatDetector.isSuspiciousBot`. -/
def isSuspiciousBot (env : TEnv) (ua : String) : Bool :=
  suspiciousBotPatterns.any (fun p => tmatches env p ua)

/-- `ThreatDetector.isUserAgentSpoofed`: the one implausible pair the
source checks. -/
def isUserAgentSpoofed (ua : UAData) : Bool :=
  ua.osName == some "Windows" && ua.browserName == some "Safari"

/-- `ThreatDetector.analyzeUserAgent`. -/
def analyzeUserAgent (env : TEnv) (e : SecurityEvent)
    (r : ThreatAnalysisResult) : ThreatAnalysisResult :=
  match e.source.bind (·.userAgent) with
  | none => r
  | some ua =>
    if ua = "" then r
    else
      let parsed := env.uaParse ua
      let r0 := { r with meta := { r.meta with userAgent := some parsed } }
      let r1 :=
        if isOutdatedBrowser parsed then
          { r0 with
              threatTypes := r0.threatTypes ++ ["outdated_browser"]
              confidence := r0.confidence + 0.2 }
        else r0
      let r2 :=
        if isSuspiciousBot env ua then
          { r1 with
              threatTypes := r1.threatTypes ++ ["suspicious_bot"]
              confidence := r1.confidence + 0.6 }
        else r1
      if isUserAgentSpoofed parsed then
        { r2 with
            threatTypes := r2.threatTypes ++ ["user_agent_spoofing"]
            confidence := r2.confidence + 0.5 }
      else r2

/-- The four pattern checks of the detector's
`analyzeConstitutionalCompliance`, with the violation tags they
push. -/
def detectorConstitutionalChecks : List (String × String) :=
  [ ("\\b(dehumaniz|degrading|humiliat)", "human_dignity_threat"),
    ("\\b(discriminat|racist|sexist|homophobic)\\b", "discriminatory_content"),
    ("\\b(personal.*data|private.*info|breach.*privacy)\\b", "privacy_violation"),
    ("\\b(hack|exploit|illegal.*activity|malicious)\\b", "harmful_activity_promotion") ]

/-- `ThreatDetector.analyzeConstitutionalCompliance`: any match clears
compliance, forces threat status and sets severity to high. -/
def analyzeConstitutionalCompliance (env : TEnv) (e : SecurityEvent)
    (r : ThreatAnalysisResult) : ThreatAnalysisResult :=
  let content := serializedData e
  let viols :=
    (detectorConstitutionalChecks.filter
      (fun pc => tmatches env pc.1 content)).map (·.2)
  if viols ≠ [] then
    { r with
        constitutionalCompliant := false
        isThreat := true
        threatTypes := r.threatTypes ++ ["constitutional_violation"]
        severity := .high
        confidence := r.confidence + 0.9
        meta := { r.meta with constitutionalViolations := viols } }
  else r

/-- `ThreatDetector.calculateThreatScore`: clamp confidence to 1, then
the severity/confidence threshold table, then the unconditional
constitutional override. -/
def calculateThreatScore (r : ThreatAnalysisResult) : ThreatAnalysisResult :=
  let r0 := { r with confidence := min r.confidence 1 }
  let r1 :=
    if r0.severity = .critical ∧ r0.confidence ≥ 0.9 then
      { r0 with isThreat := true }
    else if r0.severity = .high ∧ r0.confidence ≥ 0.7 then
      { r0 with isThreat := true }
    else if r0.severity = .medium ∧ r0.confidence ≥ 0.5 then
      { r0 with isThreat := true }
    else if r0.confidence ≥ 0.3 ∧ r0.threatTypes.length > 2 then
      { r0 with isThreat := true }
    else r0
  if r1.constitutionalCompliant = false then { r1 with isThreat := true }
  else r1

/-- `ThreatDetector.analyzeThreat`: the six analyzers in source order
followed by the final scoring, starting from the neutral result. -/
def analyzeThreat (env : TEnv) (e : SecurityEvent) : ThreatAnalysisResult :=
  let r0 : ThreatAnalysisResult :=
    { isThreat := false, threatTypes := [], severity := .low,
      confidence := 0, meta := TMeta.empty, constitutionalCompliant := true }
  calculateThreatScore
    (analyzeConstitutionalCompliance env e
      (analyzeUserAgent env e
        (analyzeGeolocation env e
          (analyzeAnomalousActivity env e
            (analyzePatternThreat env e
              (analyzeIPThreat env e r0))))))

/-- Spec-side definition, following the claim wording for the
refinement comparison (not the source): the fixed severity of each
threat category - the value the corresponding analyzer assigns when
the category matches - and the claimed overall severity as the maximum
over all matched categories.  Categories to which the source assigns
no severity are taken as low. -/
def specCategorySeverity : String → Severity
  | "blacklisted_ip" => .high
  | "rate_limit_exceeded" => .medium
  | "ddos_attempt" => .high
  | "sql_injection" => .critical
  | "xss_attack" => .high
  | "command_injection" => .critical
  | "constitutional_violation" => .high
  | "directory_traversal" => .high
  | "csrf_attempt" => .medium
  | _ => .low

/-- Spec-side definition (claim wording): maximum category severity
over the matched threat categories. -/
def specMaxSeverity (types : List String) : Severity :=
  types.foldl
    (fun acc t =>
      if severityLevel (specCategorySeverity t) > severityLevel acc
      then specCategorySeverity t else acc) .low

/-- The content `ComplianceChecker.checkEventCompliance` extracts from
an event: serialised payload, user agent, referer and serialised
metadata, dropping empty pieces and joining with a space. -/
def combinedEventContent (e : SecurityEvent) : String :=
  let contents : List String :=
    [ (match e.data with | some d => d.serialized | none => ""),
      (e.source.bind (·.userAgent)).getD "",
      (e.source.bind (·.referer)).getD "",
      e.metaSerialized.getD "" ]
  String.intercalate " " (contents.filter (fun c => c.length > 0))

/-- `ComplianceChecker.checkEventCompliance`: `checkCompliance` on the
combined event content (the event-specific metadata merged into the
result afterwards never feeds back into the scoring and is not
modelled). -/
def checkEventCompliance (env : REnv) (e : SecurityEvent) : ComplianceResult :=
  checkCompliance env (combinedEventContent e)

/-- External validators used by the orchestrator
(`validator.isIP`, `validator.isISO8601`). -/
structure OEnv where
  isIP : String → Bool
  isISO8601 : String → Bool

/-- `ShinAISecurityMonitoringSystem.validateSecurityEvent`: required
fields (JS truthiness), then IP syntax when a truthy `source.ip` is
present, then ISO-8601 timestamp syntax. -/
def validateSecurityEvent (env : OEnv) (e : SecurityEvent) : Bool :=
  (e.timestamp != "" && e.etype != "" && e.source.isSome && e.data.isSome)
    && (match e.source.bind (·.ip) with
        | some ip => if ip = "" then true else env.isIP ip
        | none => true)
    && env.isISO8601 e.timestamp

/-- Response of the `/security/event` endpoint: HTTP 200 with
`success: true` when `processSecurityEvent` returns normally, HTTP 500
when it throws. -/
inductive PipeResponse where
  | success
  | failure
deriving DecidableEq, Repr

/-- Observable outcome of one `processSecurityEvent` call: the
endpoint response, the audit-log event types written through
`auditLogger.logSecurityEvent`, the alert-manager calls made, and
whether the invalid-event warning was logged. -/
structure PipeOutcome where
  response : PipeResponse
  audits : List String
  alerts : List String
  warnedInvalid : Bool
deriving DecidableEq, Repr

/-- `ShinAISecurityMonitoringSystem.processSecurityEvent` together
with the `/security/event` endpoint wrapper.  The two scorers are
passed as fallible collaborators (`Except` mirrors a JS throw); a
validation failure logs a warning and returns normally, so the caller
still sees success; a scorer throw is logged and rethrown by the
orchestrator's catch, so the endpoint answers 500.  An audit entry is
written only inside the `isThreat` and `!compliant` branches.  The
alert-manager and audit-logger calls are modelled as returning
normally, and the stats counters and `securityMonitor` update are not
modelled. -/
def processSecurityEvent (env : OEnv)
    (analyze : SecurityEvent → Except Unit ThreatAnalysisResult)
    (checkComp : SecurityEvent → Except Unit ComplianceResult)
    (e : SecurityEvent) : PipeOutcome :=
  if validateSecurityEvent env e = false then
    { response := .success, audits := [], alerts := [], warnedInvalid := true }
  else
    match analyze e with
    | .error _ =>
      { response := .failure, audits := [], alerts := [], warnedInvalid := false }
    | .ok tr =>
      let alerts1 := if tr.isThreat then ["threat"] else []
      let audits1 := if tr.isThreat then ["threat_detected"] else []
      match checkComp e with
      | .error _ =>
        { response := .failure, audits := audits1, alerts := alerts1,
          warnedInvalid := false }
      | .ok cr =>
        { response := .success
          audits := audits1 ++ if cr.compliant then [] else ["constitutional_violation"]
          alerts := alerts1 ++ if cr.compliant then [] else ["compliance"]
          warnedInvalid := false }

/-- The `event_data` slot of a stored audit entry: either the
encryption envelope produced by `encryptData` (an object with
`encrypted: true`, the ciphertext in `data` and the algorithm name,
abstracted by its ciphertext) or the plain JSON value passed through
when encryption is disabled or failed. -/
inductive StoredData (J : Type) where
  | envl (ct : String)
  | plain (v : J)
deriving DecidableEq, Repr

/-- The canonical subset of audit-entry fields hashed by
`calculateEntryHash`: id, ISO timestamp, event type, (possibly
encrypted) event data, and metadata (carried in serialised form). -/
structure CanonFields (J : Type) where
  id : String
  timestampIso : String
  eventType : String
  eventData : StoredData J
  md : String
deriving DecidableEq, Repr

/-- External primitives of `AuditLogger`, parametric in the JSON
payload type `J`: the SHA-256 hex digest `hashFn`, `JSON.stringify` of
the canonical field object (`serializeCanon`), `JSON.stringify` /
`JSON.parse` on payloads, the AES cipher (`enc` fails when
`createCipher`/`update`/`final` throws; `dec` fails when decryption or
padding validation throws) and `looksEnvelope`, the truthiness test
`encryptedData.encrypted && encryptedData.data` applied to a plain
JSON value - it yields the content of the `data` field when the value
is an object with truthy `encrypted` and `data` fields, and `none`
otherwise.  `encryptionEnabled` is `auditConfig.encryption_enabled`
(true in the source). -/
structure AuditEnv (J : Type) where
  hashFn : String → String
  serializeCanon : CanonFields J → String
  stringify : J → String
  parse : String → Option J
  enc : String → Option String
  dec : String → Option String
  looksEnvelope : J → Option String
  encryptionEnabled : Bool

/-- `AuditLogger.encryptData`: stringify and encrypt; on a cipher
failure the catch block returns the original data unchanged. -/
def encryptData {J : Type} (env : AuditEnv J) (d : J) : StoredData J :=
  match env.enc (env.stringify d) with
  | some ct => .envl ct
  | none => .plain d

/-- `AuditLogger.decryptData`: values without truthy
`encrypted`/`data` fields are returned unchanged; otherwise the
ciphertext is decrypted and parsed, any failure returning the input
unchanged via the catch block. -/
def decryptData {J : Type} (env : AuditEnv J) (d : StoredData J) : StoredData J :=
  match d with
  | .envl ct =>
    if ct = "" then d
    else
      match env.dec ct with
      | none => d
      | some s =>
        match env.parse s with
        | some v => .plain v
        | none => d
  | .plain v =>
    match env.looksEnvelope v with
    | none => d
    | some ct =>
      match env.dec ct with
      | none => d
      | some s =>
        match env.parse s with
        | some w => .plain w
        | none => d

/-- The per-entry decryption step of `AuditLogger.searchLogs`:
`decryptData` exactly when the stored `encrypted` flag is set. -/
def searchDecrypt {J : Type} (env : AuditEnv J) (encrypted : Bool)
    (d : StoredData J) : StoredData J :=
  if encrypted then decryptData env d else d

/-- A stored audit-log entry (`logSecurityEvent`'s `auditEntry`);
`md` carries the metadata object in serialised form. -/
structure AuditEntry (J : Type) where
  id : String
  timestampIso : String
  eventType : String
  eventData : StoredData J
  md : String
  ccCompliant : Bool
  severity : Severity
  hash : String
  encrypted : Bool
deriving DecidableEq, Repr

/-- `AuditLogger.calculateEntryHash`: digest of the serialised
canonical fields. -/
def calculateEntryHash {J : Type} (env : AuditEnv J) (entry : AuditEntry J) : String :=
  env.hashFn (env.serializeCanon
    ⟨entry.id, entry.timestampIso, entry.eventType, entry.eventData, entry.md⟩)

/-- Entry construction inside `AuditLogger.logSecurityEvent`: encrypt
the payload when encryption is enabled, then compute the hash over the
canonical fields of the entry as stored.  The generated id
(`crypto.randomUUID`), timestamp (`new Date()`), and the
constitutional-compliance / severity values - which sit outside the
canonical hashed tuple - are inputs here. -/
def mkAuditEntry {J : Type} (env : AuditEnv J) (idv tsIso evType : String)
    (payload : J) (md : String) (cc : Bool) (sev : Severity) : AuditEntry J :=
  let stored := if env.encryptionEnabled then encryptData env payload else .plain payload
  let pre : AuditEntry J :=
    { id := idv, timestampIso := tsIso, eventType := evType,
      eventData := stored, md := md, ccCompliant := cc, severity := sev,
      hash := "", encrypted := env.encryptionEnabled }
  { pre with hash := calculateEntryHash env pre }

/-- Arguments of one `logSecurityEvent` entry construction. -/
structure AuditArgs (J : Type) where
  id : String
  tsIso : String
  evType : String
  payload : J
  md : String
  cc : Bool
  sev : Severity

def mkFromArgs {J : Type} (env : AuditEnv J) (a : AuditArgs J) : AuditEntry J :=
  mkAuditEntry env a.id a.tsIso a.evType a.payload a.md a.cc a.sev

/-- Outcome of one `flushLogBuffer` call: final buffer, final store
contents, and whether the call threw. -/
structure FlushOutcome (J : Type) where
  buffer : List (AuditEntry J)
  store : List (AuditEntry J)
  threw : Bool
deriving DecidableEq, Repr

/-- `AuditLogger.flushLogBuffer`.  `buf` is the buffer at entry,
`arrivals` the entries pushed by concurrent `logSecurityEvent` calls
during the awaited bulk insert, `storeUp` whether `insertMany`
succeeds.  An empty buffer returns immediately.  On success the
copied batch is bulk-appended to the store and the buffer holds just
the arrivals.  On failure the catch block runs
`this.logBuffer = [...this.logBuffer, ...this.logBuffer]` against the
buffer as it stands after the initial clearing - that is, against the
arrivals - and rethrows; the copied batch is not restored. -/
def flushLogBuffer {J : Type} (buf arrivals : List (AuditEntry J))
    (storeUp : Bool) (store : List (AuditEntry J)) : FlushOutcome J :=
  if buf.isEmpty then ⟨buf, store, false⟩
  else if storeUp then ⟨arrivals, store ++ buf, false⟩
  else ⟨arrivals ++ arrivals, store, true⟩

/-- The daily integrity report (`audit_integrity` document). -/
structure IntegrityReport where
  date : String
  totalLogs : Nat
  validLogs : Nat
  invalidLogs : Nat
  integrityScore : ℚ
deriving DecidableEq, Repr

/-- Observable outcome of `performDailyIntegrityCheck`: the report and
its upsert, the number of per-entry integrity-violation error logs,
and the alert-manager calls made during the check. -/
structure IntegrityOutcome where
  report : IntegrityReport
  reportUpserted : Bool
  alertsDispatched : List String
  errorLogCount : Nat
deriving DecidableEq, Repr

/-- `AuditLogger.performDailyIntegrityCheck` over the previous day's
retrieved logs: recompute each entry's canonical digest, count
matches and mismatches (logging one integrity-violation error per
mismatch), and upsert the report with the valid ratio as a 0-100
score.  The source contains no call into the alert manager, so the
dispatched-alert list is built empty. -/
def performDailyIntegrityCheck {J : Type} (env : AuditEnv J) (date : String)
    (logs : List (AuditEntry J)) : IntegrityOutcome :=
  let valid := (logs.filter (fun l => calculateEntryHash env l == l.hash)).length
  let invalid := (logs.filter (fun l => calculateEntryHash env l != l.hash)).length
  { report :=
      { date := date, totalLogs := logs.length, validLogs := valid,
        invalidLogs := invalid,
        integrityScore :=
          if logs.length > 0 then ((valid : ℚ) / (logs.length : ℚ)) * 100
          else 100 }
    reportUpserted := true
    alertsDispatched := []
    errorLogCount := invalid }

/-- Redis-backed cooldown markers: key and absolute expiry second. -/
def CooldownState : Type := List (String × Nat)

/-- The cooldown key `alert:cooldown:type:identifier`. -/
def cooldownKey (alertType identifier : String) : String :=
  "alert:cooldown:" ++ alertType ++ ":" ++ identifier

/-- Per-type cooldown seconds from `alertConfig`, with the
`|| 300` fallback of `setCooldown`. -/
def alertCooldownSeconds : String → Nat
  | "threat" => 300
  | "compliance" => 600
  | "system" => 900
  | _ => 300

/-- `AlertManager.isInCooldown`: redis `exists` on the cooldown key; a
marker exists while the current second is before its expiry. -/
def isInCooldown (st : CooldownState) (now : Nat)
    (alertType identifier : String) : Bool :=
  st.any (fun kv => kv.1 == cooldownKey alertType identifier && decide (now < kv.2))

/-- `AlertManager.setCooldown`: redis `setEx` with the type-specific
TTL - any previous marker for the key is replaced and the new expiry
is `now` plus the TTL. -/
def setCooldown (st : CooldownState) (now : Nat)
    (alertType identifier : String) : CooldownState :=
  (st.filter (fun kv => kv.1 != cooldownKey alertType identifier)) ++
    [(cooldownKey alertType identifier, now + alertCooldownSeconds alertType)]

/-- `AlertManager.sendThreatAlert` as a step on the cooldown state:
the key is built from the alert type and
`threatResult.metadata.source_ip` (an undefined field is coerced to
the text form of undefined inside the template literal); a marker hit
suppresses the alert, otherwise the alert fans out to the configured
channels (abstracted as the returned marker) and the cooldown is
set. -/
def sendThreatAlert (st : CooldownState) (now : Nat)
    (tr : ThreatAnalysisResult) : CooldownState × Option String :=
  let ident := tr.meta.sourceIp.getD "undefined"
  if isInCooldown st now "threat" ident then (st, none)
  else (setCooldown st now "threat" ident, some "threat")

/-! Helper lemmas shared by the claim theorems. -/

lemma cpvFold_no_match (env : REnv) (content : String) :
    ∀ (ps : List CPat) (v : ViolationCheck),
      (∀ p ∈ ps, env.rmatch p.src content = none) →
      ps.foldl (cpvStep env content) v = v := by
  intro ps
  induction ps with
  | nil => intro v _; rfl
  | cons p t ih =>
    intro v h
    have hp : env.rmatch p.src content = none := h p (List.mem_cons_self p t)
    have ht : ∀ q ∈ t, env.rmatch q.src content = none :=
      fun q hq => h q (List.mem_cons_of_mem p hq)
    simp only [List.foldl_cons]
    rw [show cpvStep env content v p = v from by unfold cpvStep; rw [hp]]
    exact ih v ht

lemma checkPrincipleViolation_no_match (env : REnv) (principle : String)
    (config : PrincipleConfig) (content : String)
    (h : ∀ p ∈ config.patterns, env.rmatch p.src content = none) :
    (checkPrincipleViolation env principle config content).violated = false := by
  simp only [checkPrincipleViolation]
  rw [cpvFold_no_match env content config.patterns _ h]
  norm_num

lemma ccFold_no_match (env : REnv) (content : String) :
    ∀ (l : List PrincipleConfig) (acc : ComplianceResult),
      (∀ pc ∈ l, ∀ p ∈ pc.patterns, env.rmatch p.src content = none) →
      l.foldl (ccStep env content) acc = acc := by
  intro l
  induction l with
  | nil => intro acc _; rfl
  | cons pc t ih =>
    intro acc h
    have hpc := checkPrincipleViolation_no_match env pc.name pc content
      (h pc (List.mem_cons_self pc t))
    simp only [List.foldl_cons]
    rw [show ccStep env content acc pc = acc from by simp [ccStep, hpc]]
    exact ih acc (fun q hq => h q (List.mem_cons_of_mem pc hq))

lemma ccFold_compliant_iff (env : REnv) (content : String) :
    ∀ (l : List PrincipleConfig) (acc : ComplianceResult),
      acc.compliant = acc.violations.isEmpty →
      (l.foldl (ccStep env content) acc).compliant
        = (l.foldl (ccStep env content) acc).violations.isEmpty := by
  intro l
  induction l with
  | nil => intro acc h; simpa using h
  | cons pc t ih =>
    intro acc h
    simp only [List.foldl_cons]
    apply ih
    unfold ccStep
    by_cases hv : (checkPrincipleViolation env pc.name pc content).violated = true
    · simp [hv]
    · simp [hv, h]

/-- The fully compliant result `checkCompliance` starts from. -/
def cleanComplianceResult : ComplianceResult :=
  { compliant := true, violations := [], score := 1,
    principlesChecked := constitutionalPrinciples.map (·.name) }

lemma checkCompliance_no_match (env : REnv) (content : String)
    (h : ∀ pc ∈ constitutionalPrinciples, ∀ p ∈ pc.patterns,
      env.rmatch p.src content = none) :
    checkCompliance env content = cleanComplianceResult := by
  simp only [checkCompliance]
  rw [ccFold_no_match env content constitutionalPrinciples _ h]
  simp only [cleanComplianceResult]
  norm_num

lemma checkCompliance_compliant_iff (env : REnv) (content : String) :
    (checkCompliance env content).compliant
      = (checkCompliance env content).violations.isEmpty := by
  simp only [checkCompliance]
  exact ccFold_compliant_iff env content constitutionalPrinciples _ rfl

/-- C9: an input whose content matches no detection pattern of any
principle yields `compliant = true`, `score = 1` and an empty
violation list from `checkCompliance`; and in general the `compliant`
flag is true exactly when the violation list is empty. -/
theorem c9_clean_content_compliant :
    (∀ (env : REnv) (content : String),
       (∀ pc ∈ constitutionalPrinciples, ∀ p ∈ pc.patterns,
          env.rmatch p.src content = none) →
       checkCompliance env content =
         { compliant := true, violations := [], score := 1,
           principlesChecked := constitutionalPrinciples.map (·.name) })
    ∧ (∀ (env : REnv) (content : String),
        (checkCompliance env content).compliant
          = (checkCompliance env content).violations.isEmpty) :=
  ⟨fun env content h => checkCompliance_no_match env content h,
   fun env content => checkCompliance_compliant_iff env content⟩

/-- Witness for the clean-content part of C9 at a concrete engine and
content. -/
theorem c9_clean_content_compliant_witness :
    checkCompliance ⟨fun _ _ => none⟩ "hello" =
      { compliant := true, violations := [], score := 1,
        principlesChecked := constitutionalPrinciples.map (·.name) } :=
  c9_clean_content_compliant.1 ⟨fun _ _ => none⟩ "hello"
    (fun _ _ _ _ => rfl)

/-! C4: severity versus the per-category maximum. -/

/-- The neutral analysis result `analyzeThreat` starts from. -/
def neutralThreat : ThreatAnalysisResult :=
  { isThreat := false, threatTypes := [], severity := .low,
    confidence := 0, meta := TMeta.empty, constitutionalCompliant := true }

/-- Concrete environment: the source's own blacklist, a per-minute
request count of 150, noon, and no other signal. -/
def envC4 : TEnv :=
  { rmatch := fun _ _ => none
    blacklist := ["192.168.1.100", "10.0.0.1"]
    requestCount := fun _ => 150
    suspiciousScore := fun _ => 0
    recentRequestCount := fun _ => 0
    geo := fun _ => none
    uaParse := fun _ => default
    hour := 12 }

/-- A valid event from the blacklisted IP with an innocuous string
payload. -/
def eventC4 : SecurityEvent :=
  { id := some "e-c4"
    timestamp := "2024-01-01T10:00:00Z"
    etype := "http_request"
    source := some { ip := some "192.168.1.100", userAgent := none, referer := none }
    data := some { serialized := "\"hello\"", endpoint := none }
    metaSerialized := none }

lemma analyzeThreat_envC4 :
    analyzeThreat envC4 eventC4 =
      { isThreat := true
        threatTypes := ["blacklisted_ip", "rate_limit_exceeded"]
        severity := .medium
        confidence := 1
        meta := { TMeta.empty with requestCount := some 150 }
        constitutionalCompliant := true } := by
  have h0 : analyzeThreat envC4 eventC4 =
      calculateThreatScore
        { isThreat := true
          threatTypes := ["blacklisted_ip", "rate_limit_exceeded"]
          severity := .medium
          confidence := 0 + 0.9 + 0.7
          meta := { TMeta.empty with requestCount := some 150 }
          constitutionalCompliant := true } := rfl
  rw [h0]
  norm_num [calculateThreatScore, min_def, TMeta.empty]

/-- C4 counterexample: for the blacklisted, rate-limited event the
matched categories are blacklisted-ip and rate-limit-exceeded with
fixed severities high and medium, so the claimed maximum is high, yet
`analyzeThreat` returns severity medium - the rate-limit branch
overwrote the blacklist severity. -/
theorem c4_severity_not_max_counterexample :
    (analyzeThreat envC4 eventC4).threatTypes
        = ["blacklisted_ip", "rate_limit_exceeded"]
    ∧ (analyzeThreat envC4 eventC4).severity = Severity.medium
    ∧ specMaxSeverity ["blacklisted_ip", "rate_limit_exceeded"] = Severity.high
    ∧ (analyzeThreat envC4 eventC4).severity
        ≠ specMaxSeverity ["blacklisted_ip", "rate_limit_exceeded"] := by
  refine ⟨?_, ?_, rfl, ?_⟩
  · rw [analyzeThreat_envC4]
  · rw [analyzeThreat_envC4]
  · rw [analyzeThreat_envC4]
    decide

lemma foldl_severity_mono {α : Type} (f : ThreatAnalysisResult → α → ThreatAnalysisResult)
    (hf : ∀ r a, severityLevel r.severity ≤ severityLevel ((f r a)).severity) :
    ∀ (l : List α) (r : ThreatAnalysisResult),
      severityLevel r.severity ≤ severityLevel ((l.foldl f r).severity) := by
  intro l
  induction l with
  | nil => intro r; exact le_rfl
  | cons a t ih =>
    intro r
    exact le_trans (hf r a) (ih (f r a))

lemma patStep_severity_mono (env : TEnv) (content tt : String)
    (r : ThreatAnalysisResult) (p : String) :
    severityLevel r.severity ≤ severityLevel ((patStep env content tt r p).severity) := by
  unfold patStep
  cases h : env.rmatch p content with
  | none => exact le_rfl
  | some m =>
    dsimp only
    split
    · dsimp only
      split
      · exact Nat.le_of_lt (by assumption)
      · exact le_rfl
    · dsimp only
      split
      · exact Nat.le_of_lt (by assumption)
      · exact le_rfl

lemma analyzeIPThreat_blacklisted_rated (env : TEnv) (e : SecurityEvent)
    (r : ThreatAnalysisResult) (ip : String)
    (hip : presentIp e = some ip)
    (hbl : env.blacklist.contains ip = true)
    (hcnt : 100 < env.requestCount ip) :
    (analyzeIPThreat env e r).severity = Severity.medium := by
  unfold analyzeIPThreat
  rw [hip]
  dsimp only
  simp only [hbl, if_true, hcnt, if_pos]
  split
  · split
    · rfl
    · rfl
  · rfl

/-- C4 amended: the maximum/monotone rule holds only inside pattern
matching - `analyzePatternThreat` never lowers the severity - while
`analyzeIPThreat` assigns its fixed per-signal severities
unconditionally in sequence (blacklist high, then rate-limit medium),
so a blacklisted-IP event that also exceeds the rate limit leaves IP
analysis with severity medium, not high. -/
theorem c4_amended_severity :
    (∀ (env : TEnv) (e : SecurityEvent) (r : ThreatAnalysisResult),
       severityLevel r.severity
         ≤ severityLevel ((analyzePatternThreat env e r).severity))
    ∧ (∀ (env : TEnv) (e : SecurityEvent) (r : ThreatAnalysisResult) (ip : String),
       presentIp e = some ip →
       env.blacklist.contains ip = true →
       100 < env.requestCount ip →
       (analyzeIPThreat env e r).severity = Severity.medium) := by
  constructor
  · intro env e r
    unfold analyzePatternThreat
    exact foldl_severity_mono _
      (fun r' cat =>
        foldl_severity_mono _
          (fun r'' p => patStep_severity_mono env (serializedData e) cat.1 r'' p)
          cat.2 r')
      threatPatternsTable r
  · intro env e r ip hip hbl hcnt
    exact analyzeIPThreat_blacklisted_rated env e r ip hip hbl hcnt

/-- Witness for the hypothesis-bearing part of the amended C4 at the
concrete blacklisted, rate-limited input. -/
theorem c4_amended_severity_witness :
    (analyzeIPThreat envC4 eventC4 neutralThreat).severity = Severity.medium :=
  c4_amended_severity.2 envC4 eventC4 neutralThreat "192.168.1.100"
    rfl rfl (by decide)

/-! C8: determinism of the two scorers. -/

/-- Concrete environment at 3 a.m.: a cached suspicion score of 0.6
for every IP, nothing blacklisted or rate-limited, no pattern
matches. -/
def envC8a : TEnv :=
  { rmatch := fun _ _ => none
    blacklist := ["192.168.1.100", "10.0.0.1"]
    requestCount := fun _ => 0
    suspiciousScore := fun _ => 0.6
    recentRequestCount := fun _ => 0
    geo := fun _ => none
    uaParse := fun _ => default
    hour := 3 }

/-- The same external state sampled at noon: only the clock differs. -/
def envC8b : TEnv := { envC8a with hour := 12 }

/-- A fixed event with identical content for both runs. -/
def eventC8 : SecurityEvent :=
  { id := none
    timestamp := "2024-01-01T03:00:00Z"
    etype := "http_request"
    source := some { ip := some "9.9.9.9", userAgent := none, referer := none }
    data := some { serialized := "\"hello\"", endpoint := none }
    metaSerialized := none }

lemma analyzeThreat_envC8a :
    analyzeThreat envC8a eventC8 =
      { isThreat := false
        threatTypes := ["suspicious_timing"]
        severity := .low
        confidence := 0.3
        meta := TMeta.empty
        constitutionalCompliant := true } := by
  have h1 : analyzeIPThreat envC8a eventC8
      { isThreat := false, threatTypes := [], severity := .low,
        confidence := 0, meta := TMeta.empty, constitutionalCompliant := true } =
      { isThreat := false
        threatTypes := ["suspicious_timing"]
        severity := .low
        confidence := 0 + 0.3
        meta := TMeta.empty
        constitutionalCompliant := true } := by
    have hip : presentIp eventC8 = some "9.9.9.9" := rfl
    simp only [analyzeIPThreat, hip]
    norm_num [envC8a]
    decide
  have h2 : analyzeConstitutionalCompliance envC8a eventC8
      (analyzeUserAgent envC8a eventC8
        (analyzeGeolocation envC8a eventC8
          (analyzeAnomalousActivity envC8a eventC8
            (analyzePatternThreat envC8a eventC8
              { isThreat := false
                threatTypes := ["suspicious_timing"]
                severity := .low
                confidence := 0 + 0.3
                meta := TMeta.empty
                constitutionalCompliant := true })))) =
      { isThreat := false
        threatTypes := ["suspicious_timing"]
        severity := .low
        confidence := 0 + 0.3
        meta := TMeta.empty
        constitutionalCompliant := true } := rfl
  simp only [analyzeThreat]
  rw [h1, h2]
  norm_num [calculateThreatScore, min_def]

lemma analyzeThreat_envC8b :
    analyzeThreat envC8b eventC8 = neutralThreat := by
  have h0 : analyzeThreat envC8b eventC8 =
      calculateThreatScore
        { isThreat := false, threatTypes := [], severity := .low,
          confidence := 0, meta := TMeta.empty,
          constitutionalCompliant := true } := rfl
  rw [h0]
  norm_num [calculateThreatScore, min_def, neutralThreat]

/-- C8 counterexample: two runs of `analyzeThreat` on the same event
with the blacklist, rate counters and cached scores held fixed - only
the wall clock differs (3 a.m. versus noon) - return different
confidence values, so the determinism claim fails as stated. -/
theorem c8_determinism_counterexample :
    envC8a.blacklist = envC8b.blacklist
    ∧ envC8a.requestCount = envC8b.requestCount
    ∧ envC8a.suspiciousScore = envC8b.suspiciousScore
    ∧ envC8a.recentRequestCount = envC8b.recentRequestCount
    ∧ envC8a.rmatch = envC8b.rmatch
    ∧ envC8a.geo = envC8b.geo
    ∧ envC8a.uaParse = envC8b.uaParse
    ∧ (analyzeThreat envC8a eventC8).confidence = 0.3
    ∧ (analyzeThreat envC8b eventC8).confidence = 0
    ∧ (analyzeThreat envC8a eventC8).confidence
        ≠ (analyzeThreat envC8b eventC8).confidence := by
  refine ⟨rfl, rfl, rfl, rfl, rfl, rfl, rfl, ?_, ?_, ?_⟩
  · rw [analyzeThreat_envC8a]
  · rw [analyzeThreat_envC8b]; rfl
  · rw [analyzeThreat_envC8a, analyzeThreat_envC8b]
    norm_num [neutralThreat]

/-- C8 amended: with the wall clock held constant alongside the listed
external state, both scorers are deterministic - the threat analysis
is a function of the regex engine, blacklist, counters, cached scores,
lookup tables and hour alone, and the compliance check a function of
the regex engine and content alone. -/
theorem c8_amended_determinism :
    (∀ (env₁ env₂ : TEnv) (e₁ e₂ : SecurityEvent),
       env₁.rmatch = env₂.rmatch → env₁.blacklist = env₂.blacklist →
       env₁.requestCount = env₂.requestCount →
       env₁.suspiciousScore = env₂.suspiciousScore →
       env₁.recentRequestCount = env₂.recentRequestCount →
       env₁.geo = env₂.geo → env₁.uaParse = env₂.uaParse →
       env₁.hour = env₂.hour → e₁ = e₂ →
       analyzeThreat env₁ e₁ = analyzeThreat env₂ e₂)
    ∧ (∀ (env₁ env₂ : REnv) (c₁ c₂ : String),
       env₁.rmatch = env₂.rmatch → c₁ = c₂ →
       checkCompliance env₁ c₁ = checkCompliance env₂ c₂) := by
  constructor
  · intro env₁ env₂ e₁ e₂ h1 h2 h3 h4 h5 h6 h7 h8 h9
    cases env₁
    cases env₂
    dsimp only at h1 h2 h3 h4 h5 h6 h7 h8
    subst h1 h2 h3 h4 h5 h6 h7 h8 h9
    rfl
  · intro env₁ env₂ c₁ c₂ h1 h2
    cases env₁
    cases env₂
    dsimp only at h1
    subst h1 h2
    rfl

/-- Witness for the amended C8 determinism at concrete inputs. -/
theorem c8_amended_determinism_witness :
    analyzeThreat envC8a eventC8 = analyzeThreat envC8a eventC8
    ∧ checkCompliance ⟨fun _ _ => none⟩ "hello"
        = checkCompliance ⟨fun _ _ => none⟩ "hello" :=
  ⟨c8_amended_determinism.1 envC8a envC8a eventC8 eventC8
      rfl rfl rfl rfl rfl rfl rfl rfl rfl,
   c8_amended_determinism.2 ⟨fun _ _ => none⟩ ⟨fun _ _ => none⟩
      "hello" "hello" rfl rfl⟩

/-! C1 and C3: the orchestrator's audit and failure behaviour. -/

/-- Validators that accept the concrete test events. -/
def envPipe : OEnv := { isIP := fun _ => true, isISO8601 := fun _ => true }

/-- A regex engine in which nothing matches. -/
def cenvNone : REnv := ⟨fun _ _ => none⟩

/-- The benign scorers: the real model scorers run against the
noon-time environment and the no-match engine. -/
def analyzeBenign : SecurityEvent → Except Unit ThreatAnalysisResult :=
  fun e => .ok (analyzeThreat envC8b e)

def checkCompBenign : SecurityEvent → Except Unit ComplianceResult :=
  fun e => .ok (checkEventCompliance cenvNone e)

/-- A scorer that throws, as `analyzeThreat` does when its own body
fails (its top-level catch logs and rethrows). -/
def analyzeThrowing : SecurityEvent → Except Unit ThreatAnalysisResult :=
  fun _ => .error ()

/-- C1 counterexample: a valid event that is neither a threat nor a
compliance violation passes through `processSecurityEvent` with no
audit entry written at all - both `logSecurityEvent` calls sit inside
the `isThreat` / `!compliant` branches. -/
theorem c1_no_audit_for_benign_counterexample :
    validateSecurityEvent envPipe eventC8 = true
    ∧ (analyzeThreat envC8b eventC8).isThreat = false
    ∧ (checkEventCompliance cenvNone eventC8).compliant = true
    ∧ processSecurityEvent envPipe analyzeBenign checkCompBenign eventC8 =
        { response := .success, audits := [], alerts := [],
          warnedInvalid := false } := by
  have hcomp : checkEventCompliance cenvNone eventC8 = cleanComplianceResult :=
    checkCompliance_no_match cenvNone (combinedEventContent eventC8)
      (fun _ _ _ _ => rfl)
  refine ⟨rfl, ?_, ?_, ?_⟩
  · rw [analyzeThreat_envC8b]; rfl
  · rw [hcomp]; rfl
  · simp only [processSecurityEvent, analyzeBenign, checkCompBenign,
      analyzeThreat_envC8b, hcomp]
    rw [show validateSecurityEvent envPipe eventC8 = true from rfl]
    simp [neutralThreat, cleanComplianceResult]

/-- C1 amended: when both scorers return normally, an audit entry is
written exactly for the threat branch (as a threat-detected record)
and for the violation branch (as a constitutional-violation record) -
an accepted benign event writes none - and the caller sees success. -/
theorem c1_amended_audit :
    ∀ (env : OEnv) (analyze : SecurityEvent → Except Unit ThreatAnalysisResult)
      (checkComp : SecurityEvent → Except Unit ComplianceResult)
      (e : SecurityEvent) (tr : ThreatAnalysisResult) (cr : ComplianceResult),
      validateSecurityEvent env e = true →
      analyze e = .ok tr →
      checkComp e = .ok cr →
      (processSecurityEvent env analyze checkComp e).audits =
        (if tr.isThreat then ["threat_detected"] else []) ++
          (if cr.compliant then [] else ["constitutional_violation"])
      ∧ (processSecurityEvent env analyze checkComp e).response = .success := by
  intro env analyze checkComp e tr cr hv ha hc
  simp [processSecurityEvent, hv, ha, hc]

/-- Witness for the amended C1 at the concrete benign input. -/
theorem c1_amended_audit_witness :
    (processSecurityEvent envPipe analyzeBenign checkCompBenign eventC8).audits =
      (if (analyzeThreat envC8b eventC8).isThreat then ["threat_detected"] else [])
        ++ (if (checkEventCompliance cenvNone eventC8).compliant then []
            else ["constitutional_violation"])
    ∧ (processSecurityEvent
        envPipe analyzeBenign checkCompBenign eventC8).response = .success :=
  c1_amended_audit envPipe analyzeBenign checkCompBenign eventC8
    (analyzeThreat envC8b eventC8) (checkEventCompliance cenvNone eventC8)
    rfl rfl rfl

/-- C3 counterexample: a valid event whose threat scorer throws makes
`processSecurityEvent` rethrow, so the ingestion endpoint answers 500
- not a success acknowledgment - and no conservative default is
substituted (no audit entry is written either). -/
theorem c3_scorer_error_counterexample :
    validateSecurityEvent envPipe eventC8 = true
    ∧ processSecurityEvent envPipe analyzeThrowing checkCompBenign eventC8 =
        { response := .failure, audits := [], alerts := [],
          warnedInvalid := false } :=
  ⟨rfl, rfl⟩

/-- C3 amended: an exception escaping a scorer is not absorbed - the
orchestrator rethrows it, the caller receives an error response, and
the event is not audited (for a compliance-scorer throw, only a
threat-branch audit written beforehand survives).  Only errors inside
the individual sub-analyzers are caught with analysis continuing. -/
theorem c3_amended_scorer_error :
    ∀ (env : OEnv) (analyze : SecurityEvent → Except Unit ThreatAnalysisResult)
      (checkComp : SecurityEvent → Except Unit ComplianceResult)
      (e : SecurityEvent),
      validateSecurityEvent env e = true →
      (∀ u, analyze e = .error u →
        (processSecurityEvent env analyze checkComp e).response = .failure
        ∧ (processSecurityEvent env analyze checkComp e).audits = [])
      ∧ (∀ (tr : ThreatAnalysisResult) (u : Unit),
          analyze e = .ok tr → checkComp e = .error u →
          (processSecurityEvent env analyze checkComp e).response = .failure
          ∧ (processSecurityEvent env analyze checkComp e).audits
              = (if tr.isThreat then ["threat_detected"] else [])) := by
  intro env analyze checkComp e hv
  constructor
  · intro u ha
    simp [processSecurityEvent, hv, ha]
  · intro tr u ha hc
    simp [processSecurityEvent, hv, ha, hc]

/-- Witness for the amended C3 at the concrete throwing scorer. -/
theorem c3_amended_scorer_error_witness :
    (processSecurityEvent envPipe analyzeThrowing checkCompBenign eventC8).response
        = .failure
    ∧ (processSecurityEvent envPipe analyzeThrowing checkCompBenign eventC8).audits
        = [] :=
  (c3_amended_scorer_error envPipe analyzeThrowing checkCompBenign eventC8 rfl).1
    () rfl

/-! C2, C5, C6: the audit trail. -/

/-- A concrete buffered audit entry. -/
def entryA : AuditEntry String :=
  { id := "a", timestampIso := "2024-01-01T00:00:00.000Z",
    eventType := "threat_detected", eventData := .plain "x", md := "m",
    ccCompliant := true, severity := .high, hash := "h", encrypted := false }

/-- A second entry, pushed concurrently during a flush. -/
def entryB : AuditEntry String := { entryA with id := "b" }

/-- C2: behaviour of the failed-flush recovery path.  With the store
down and no concurrent arrivals the batch is simply lost - the buffer
ends empty, nothing reaches the store; with one concurrent arrival the
batch is still lost and the arrival is duplicated.  The entry buffered
at the start of the flush is not retained. -/
theorem c2_flush_failure_loses_batch :
    (flushLogBuffer [entryA] [] false []).buffer = []
    ∧ (flushLogBuffer [entryA] [] false []).store = []
    ∧ (flushLogBuffer [entryA] [] false []).threw = true
    ∧ (flushLogBuffer [entryA] [entryB] false []).buffer = [entryB, entryB]
    ∧ entryA ∉ (flushLogBuffer [entryA] [entryB] false []).buffer := by
  decide

/-- A transparent audit environment: the digest is the serialised
canonical text itself. -/
def aenvId : AuditEnv String :=
  { hashFn := fun s => s
    serializeCanon := fun c =>
      c.id ++ "|" ++ c.timestampIso ++ "|" ++ c.eventType ++ "|" ++
        (match c.eventData with
         | .envl ct => "E:" ++ ct
         | .plain v => "P:" ++ v) ++ "|" ++ c.md
    stringify := id
    parse := some
    enc := fun s => some s
    dec := some
    looksEnvelope := fun _ => none
    encryptionEnabled := false }

/-- An entry whose stored hash does not match its recomputed digest. -/
def tamperedEntry : AuditEntry String := { entryA with hash := "WRONG" }

/-- C5 counterexample: a day containing one tampered entry produces a
report with `invalidLogs = 1` - recorded and error-logged - but the
integrity check dispatches no alert at all, so the condition is not
escalated as a critical alert. -/
theorem c5_no_alert_counterexample :
    (performDailyIntegrityCheck aenvId "2024-01-01" [tamperedEntry]).report.invalidLogs = 1
    ∧ (performDailyIntegrityCheck aenvId "2024-01-01" [tamperedEntry]).report.validLogs = 0
    ∧ (performDailyIntegrityCheck aenvId "2024-01-01" [tamperedEntry]).report.totalLogs = 1
    ∧ (performDailyIntegrityCheck aenvId "2024-01-01" [tamperedEntry]).reportUpserted = true
    ∧ (performDailyIntegrityCheck aenvId "2024-01-01" [tamperedEntry]).errorLogCount = 1
    ∧ (performDailyIntegrityCheck aenvId "2024-01-01" [tamperedEntry]).alertsDispatched = [] := by
  decide

lemma length_filter_bool_split {α : Type} (p : α → Bool) :
    ∀ l : List α, (l.filter p).length + (l.filter (fun a => ! p a)).length = l.length := by
  intro l
  induction l with
  | nil => rfl
  | cons a t ih =>
    by_cases h : p a = true
    · simp [List.filter_cons, h]
      omega
    · have h' : p a = false := by
        cases hpa : p a
        · rfl
        · exact absurd hpa h
      simp [List.filter_cons, h']
      omega

/-- C5 amended: a hash mismatch found by the daily check is always
counted in that day's upserted report and error-logged per entry, but
it is never escalated through the Alert Dispatcher - the integrity
check makes no alert call, so cooldown behaviour never enters into
it. -/
theorem c5_amended_report_no_alert :
    ∀ (J : Type) (env : AuditEnv J) (date : String) (logs : List (AuditEntry J)),
      (performDailyIntegrityCheck env date logs).report.invalidLogs
          = (logs.filter (fun l => calculateEntryHash env l != l.hash)).length
      ∧ (performDailyIntegrityCheck env date logs).report.validLogs
          + (performDailyIntegrityCheck env date logs).report.invalidLogs
          = logs.length
      ∧ (performDailyIntegrityCheck env date logs).reportUpserted = true
      ∧ (performDailyIntegrityCheck env date logs).errorLogCount
          = (performDailyIntegrityCheck env date logs).report.invalidLogs
      ∧ (performDailyIntegrityCheck env date logs).alertsDispatched = [] := by
  intro J env date logs
  refine ⟨rfl, ?_, rfl, rfl, rfl⟩
  exact length_filter_bool_split (fun l => calculateEntryHash env l == l.hash) logs

lemma hash_mkFromArgs {J : Type} (env : AuditEnv J) (a : AuditArgs J) :
    calculateEntryHash env (mkFromArgs env a) = (mkFromArgs env a).hash := rfl

/-- C6: entries constructed by `logSecurityEvent` and stored by a
successful flush verify - recomputing the canonical digest on the
stored entry reproduces its `hash` field, so an untampered day counts
every entry among `validLogs` and none among `invalidLogs`. -/
theorem c6_integrity_roundtrip :
    ∀ (J : Type) (env : AuditEnv J) (date : String) (args : List (AuditArgs J)),
      (flushLogBuffer (args.map (mkFromArgs env)) [] true []).store
          = args.map (mkFromArgs env)
      ∧ (performDailyIntegrityCheck env date
            ((flushLogBuffer (args.map (mkFromArgs env)) [] true []).store)).report.validLogs
          = args.length
      ∧ (performDailyIntegrityCheck env date
            ((flushLogBuffer (args.map (mkFromArgs env)) [] true []).store)).report.invalidLogs
          = 0 := by
  intro J env date args
  have hst : (flushLogBuffer (args.map (mkFromArgs env)) [] true []).store
      = args.map (mkFromArgs env) := by
    by_cases h : (args.map (mkFromArgs env)).isEmpty = true
    · have h' : args.map (mkFromArgs env) = [] := by
        cases hm : args.map (mkFromArgs env)
        · rfl
        · rw [hm] at h; exact absurd h (by simp [List.isEmpty])
      simp [flushLogBuffer, h, h']
    · have h' : (args.map (mkFromArgs env)).isEmpty = false := by
        cases hm : (args.map (mkFromArgs env)).isEmpty
        · rfl
        · exact absurd hm h
      simp [flushLogBuffer, h']
  have hvalid : (args.map (mkFromArgs env)).filter
      (fun l => calculateEntryHash env l == l.hash) = args.map (mkFromArgs env) := by
    rw [List.filter_eq_self]
    intro l hl
    rcases List.mem_map.mp hl with ⟨a, _, rfl⟩
    rw [hash_mkFromArgs]
    exact beq_self_eq_true _
  have hinvalid : (args.map (mkFromArgs env)).filter
      (fun l => calculateEntryHash env l != l.hash) = [] := by
    rw [List.filter_eq_nil_iff]
    intro l hl
    rcases List.mem_map.mp hl with ⟨a, _, rfl⟩
    rw [hash_mkFromArgs]
    simp
  refine ⟨hst, ?_, ?_⟩
  · rw [hst]
    show ((args.map (mkFromArgs env)).filter _).length = args.length
    rw [hvalid, List.length_map]
  · rw [hst]
    show ((args.map (mkFromArgs env)).filter _).length = 0
    rw [hinvalid]
    rfl

/-! C7: cooldown suppression of threat alerts. -/

lemma any_filtered_key_false (st : CooldownState) (k : String) (now : Nat) :
    (List.filter (fun kv => kv.1 != k) st).any
      (fun kv => kv.1 == k && decide (now < kv.2)) = false := by
  rw [List.any_eq_false]
  intro kv hkv
  have hne : (kv.1 != k) = true := (List.mem_filter.mp hkv).2
  have heq : (kv.1 == k) = false := by
    cases hc : kv.1 == k
    · rfl
    · rw [bne, hc] at hne
      exact absurd hne (by simp)
  simp [heq]

/-- C7: two triggering threat events for the same (type, identifier)
pair inside the TTL dispatch exactly once - the first dispatches and
arms the cooldown, the second is dropped without touching the state -
and a third event at or after expiry dispatches again. -/
theorem c7_cooldown_suppression :
    ∀ (st0 : CooldownState) (t1 t2 t3 : Nat) (tr : ThreatAnalysisResult),
      isInCooldown st0 t1 "threat" (tr.meta.sourceIp.getD "undefined") = false →
      t2 < t1 + 300 →
      t1 + 300 ≤ t3 →
      (sendThreatAlert st0 t1 tr).2 = some "threat"
      ∧ (sendThreatAlert (sendThreatAlert st0 t1 tr).1 t2 tr).2 = none
      ∧ (sendThreatAlert (sendThreatAlert st0 t1 tr).1 t2 tr).1
          = (sendThreatAlert st0 t1 tr).1
      ∧ (sendThreatAlert (sendThreatAlert st0 t1 tr).1 t3 tr).2 = some "threat" := by
  intro st0 t1 t2 t3 tr h0 ht2 ht3
  have hsec : alertCooldownSeconds "threat" = 300 := rfl
  have hs1 : sendThreatAlert st0 t1 tr =
      (setCooldown st0 t1 "threat" (tr.meta.sourceIp.getD "undefined"),
        some "threat") := by
    simp [sendThreatAlert, h0]
  have hin2 : isInCooldown
      (setCooldown st0 t1 "threat" (tr.meta.sourceIp.getD "undefined")) t2
      "threat" (tr.meta.sourceIp.getD "undefined") = true := by
    simp [isInCooldown, setCooldown, List.any_append, hsec, ht2]
  have hin3 : isInCooldown
      (setCooldown st0 t1 "threat" (tr.meta.sourceIp.getD "undefined")) t3
      "threat" (tr.meta.sourceIp.getD "undefined") = false := by
    simp [isInCooldown, setCooldown, List.any_append, hsec,
      any_filtered_key_false]
    exact ⟨fun a b _ hne heq => absurd heq hne, ht3⟩
  refine ⟨by rw [hs1], ?_, ?_, ?_⟩
  · rw [hs1]
    simp [sendThreatAlert, hin2]
  · rw [hs1]
    simp [sendThreatAlert, hin2]
  · rw [hs1]
    simp [sendThreatAlert, hin3]

/-- A concrete threat result for the cooldown witness (its metadata
has no source ip, as the detector leaves it). -/
def trC7 : ThreatAnalysisResult :=
  { isThreat := true, threatTypes := ["blacklisted_ip"], severity := .high,
    confidence := 1, meta := TMeta.empty, constitutionalCompliant := true }

/-- Witness for C7 at concrete times 0, 100 and 300 from the empty
cooldown state. -/
theorem c7_cooldown_suppression_witness :
    (sendThreatAlert [] 0 trC7).2 = some "threat"
    ∧ (sendThreatAlert (sendThreatAlert [] 0 trC7).1 100 trC7).2 = none
    ∧ (sendThreatAlert (sendThreatAlert [] 0 trC7).1 100 trC7).1
        = (sendThreatAlert [] 0 trC7).1
    ∧ (sendThreatAlert (sendThreatAlert [] 0 trC7).1 300 trC7).2 = some "threat" :=
  c7_cooldown_suppression [] 0 100 300 trC7 rfl (by decide) (by decide)

/-! C10: encryption round trip in the audit logger. -/

/-- C10 as stated: over any cipher environment whose decryption
inverts successful encryption (with non-empty ciphertexts) and whose
parse inverts stringify, `decryptData` after `encryptData` returns the
original payload for every payload - including when encryption fails
and the plaintext was passed through. -/
def decryptRoundTripClaim : Prop :=
  ∀ (J : Type) (env : AuditEnv J),
    (∀ s ct, env.enc s = some ct → env.dec ct = some s) →
    (∀ s ct, env.enc s = some ct → ct ≠ "") →
    (∀ v, env.parse (env.stringify v) = some v) →
    ∀ (v : J), decryptData env (encryptData env v) = .plain v

/-- A cipher environment in which one payload (standing for a JSON
object with truthy `encrypted`/`data` fields whose `data` holds a
genuine same-key ciphertext of the value 42) fails to encrypt and is
passed through. -/
def envMasq : AuditEnv String :=
  { hashFn := fun s => s
    serializeCanon := fun c => c.id
    stringify := id
    parse := some
    enc := fun s => if s = "MASQ" ∨ s = "" then none else some s
    dec := fun s => if s = "MASQ" ∨ s = "" then none else some s
    looksEnvelope := fun v => if v = "MASQ" then some "42" else none
    encryptionEnabled := true }

lemma envMasq_dec_of_enc :
    ∀ s ct, envMasq.enc s = some ct → envMasq.dec ct = some s := by
  intro s ct h
  by_cases hs : s = "MASQ" ∨ s = ""
  · simp [envMasq, hs] at h
  · simp [envMasq, hs] at h
    subst h
    simp [envMasq, hs]

lemma envMasq_ct_ne : ∀ s ct, envMasq.enc s = some ct → ct ≠ "" := by
  intro s ct h
  by_cases hs : s = "MASQ" ∨ s = ""
  · simp [envMasq, hs] at h
  · simp [envMasq, hs] at h
    subst h
    intro hc
    exact hs (Or.inr hc)

lemma envMasq_parse :
    ∀ v : String, envMasq.parse (envMasq.stringify v) = some v :=
  fun _ => rfl

/-- C10 counterexample: for the envelope-shaped payload whose
encryption fails, the degraded pass-through is later decrypted into a
different value, so the round trip is not the identity. -/
theorem c10_roundtrip_counterexample : ¬ decryptRoundTripClaim := by
  intro h
  have hval := h String envMasq envMasq_dec_of_enc envMasq_ct_ne envMasq_parse "MASQ"
  rw [show decryptData envMasq (encryptData envMasq "MASQ")
      = StoredData.plain "42" from rfl] at hval
  simp at hval

/-- C10 amended: the round trip is the identity whenever encryption
succeeded, and in the degraded pass-through case whenever the
plaintext is not itself shaped like an encryption envelope; under the
same conditions the `searchLogs` decryption step recovers the original
`event_data`. -/
theorem c10_amended_roundtrip :
    ∀ (J : Type) (env : AuditEnv J),
      (∀ s ct, env.enc s = some ct → env.dec ct = some s) →
      (∀ s ct, env.enc s = some ct → ct ≠ "") →
      (∀ v, env.parse (env.stringify v) = some v) →
      ∀ (v : J),
        ((env.enc (env.stringify v)).isSome = true ∨ env.looksEnvelope v = none) →
        decryptData env (encryptData env v) = .plain v
        ∧ searchDecrypt env true (encryptData env v) = .plain v := by
  intro J env hdec hct hparse v hcase
  have main : decryptData env (encryptData env v) = .plain v := by
    cases henc : env.enc (env.stringify v) with
    | some ct =>
      have h1 := hdec _ _ henc
      have h2 := hct _ _ henc
      simp [encryptData, decryptData, henc, h2, h1, hparse v]
    | none =>
      have hle : env.looksEnvelope v = none := by
        rcases hcase with hs | hl
        · rw [henc] at hs
          exact absurd hs (by simp)
        · exact hl
      simp [encryptData, decryptData, henc, hle]
  exact ⟨main, by simpa [searchDecrypt] using main⟩

/-- Witness for the amended C10 on a payload that encrypts. -/
theorem c10_amended_roundtrip_witness :
    decryptData envMasq (encryptData envMasq "hi") = .plain "hi"
    ∧ searchDecrypt envMasq true (encryptData envMasq "hi") = .plain "hi" :=
  c10_amended_roundtrip String envMasq envMasq_dec_of_enc envMasq_ct_ne
    envMasq_parse "hi" (Or.inl rfl)

end ShinAI
